import Mathlib

/-!
Shallow embedding of the AIS live-tracking route
(`src/app/api/ais-live/route.ts`): the haversine distance, the message
decoding helpers (`pickSogCog`, the MMSI/IMO pattern checks), the
identity-reconciliation store (`positionsByKey`, a JS `Map` keyed by
`MMSI:${...}` / `IMO:${...}` strings), the WebSocket message handler,
`connectIfNeeded` and the `GET` query handler.

Modelling conventions:
* JS numbers are modelled as real numbers (`ℝ`); the bounding-box corner
  literals, which are only ever compared for equality (via their
  `JSON.stringify` key), are modelled as rationals so that equality is
  decidable.
* Timestamps (`new Date().toISOString()`) are opaque strings threaded in
  as a `now` parameter.
* The three debug helper fields `lastRaw` / `lastParsedType` /
  `lastParsedKeys` of the global store only record a preview of the most
  recent frame for diagnostics; they are not modelled.
-/

namespace VesselApp

/-- Helper `toRad` from `haversineMiles`: `(v * Math.PI) / 180`. -/
noncomputable def toRad (v : ℝ) : ℝ := v * Real.pi / 180

/-- Model of JS `Math.atan2 y x` (result in radians, by quadrant). -/
noncomputable def atan2 (y x : ℝ) : ℝ :=
  if 0 < x then Real.arctan (y / x)
  else if x < 0 then
    (if 0 ≤ y then Real.arctan (y / x) + Real.pi else Real.arctan (y / x) - Real.pi)
  else
    (if 0 < y then Real.pi / 2 else if y < 0 then -(Real.pi / 2) else 0)

/-- Function `haversineMiles(lat1, lon1, lat2, lon2)` from the source: great-circle
distance via the haversine formula, Earth radius `R = 3958.7613` miles. -/
noncomputable def haversineMiles (lat1 lon1 lat2 lon2 : ℝ) : ℝ :=
  let R : ℝ := 3958.7613
  let dLat := toRad (lat2 - lat1)
  let dLon := toRad (lon2 - lon1)
  let a := Real.sin (dLat / 2) ^ 2 +
    Real.cos (toRad lat1) * Real.cos (toRad lat2) * Real.sin (dLon / 2) ^ 2
  let c := 2 * atan2 (Real.sqrt a) (Real.sqrt (1 - a))
  R * c

/-- The raw JS value found for the `Sog`/`Cog` field after the
`pr?.Sog ?? pr?.sog ?? pr?.SpeedOverGround` probe chain:
`nullish` = `null`/`undefined`, `emptyStr` = `""`,
`num x` = a value whose `Number(...)` is the finite number `x`,
`nonNumeric` = a value whose `Number(...)` is `NaN` or `±Infinity`. -/
inductive RawVal where
  | nullish
  | emptyStr
  | num (x : ℝ)
  | nonNumeric

/-- One leg of `pickSogCog`:
`raw != null && raw !== "" ? Number(raw) : null`, then kept only if
`Number.isFinite`. -/
def rawToOpt : RawVal → Option ℝ
  | .num x => some x
  | _ => none

/-- Function `pickSogCog(pr)` from the source, applied to the probed raw field
values: each of sog and cog is kept iff it parses to a finite number. -/
def pickSogCog (sogRaw cogRaw : RawVal) : Option ℝ × Option ℝ :=
  (rawToOpt sogRaw, rawToOpt cogRaw)

/-- The regex `/^\d{9}$/` used to accept an MMSI. -/
def matchesMmsiPattern (s : String) : Bool :=
  s.length == 9 && s.toList.all Char.isDigit

/-- The regex `/^\d{7}$/` used to accept an IMO. -/
def matchesImoPattern (s : String) : Bool :=
  s.length == 7 && s.toList.all Char.isDigit

/-- Function `pickImo` from the source, applied to the probed (already
`normStr`-normalized) candidate: `imo && /^\d{7}$/.test(imo) ? imo : null`.
A `null`/empty candidate is modelled as `none`. -/
def pickImo : Option String → Option String
  | some s => if matchesImoPattern s then some s else none
  | none => none

/-- The `AisPosition` record type of the source. -/
structure AisPosition where
  imo : Option String
  mmsi : Option String
  lat : ℝ
  lon : ℝ
  sog : Option ℝ
  cog : Option ℝ
  lastSeenISO : String

/-- A key of the `positionsByKey` map. The source uses the template
strings `MMSI:${mmsi}` and `IMO:${imo}`; since the prefixes differ and the
identifier follows the colon, that encoding is injective, so the keys are
modelled as a two-constructor sum. -/
inductive StoreKey where
  | MMSI (id : String)
  | IMO (id : String)
deriving DecidableEq

/-- The `positionsByKey` JS `Map`, modelled as an insertion-ordered
association list (as `Map` iteration order is insertion order). -/
abbrev Store := List (StoreKey × AisPosition)

/-- Operation `Map.prototype.get`. -/
def mapGet (m : Store) (k : StoreKey) : Option AisPosition :=
  match m with
  | [] => none
  | (k', v) :: rest => if k' = k then some v else mapGet rest k

/-- Operation `Map.prototype.set`: replaces the value in place if the key is
present (keeping its position in iteration order), else appends. -/
def mapSet (m : Store) (k : StoreKey) (v : AisPosition) : Store :=
  match m with
  | [] => [(k, v)]
  | (k', v') :: rest =>
    if k' = k then (k', v) :: rest else (k', v') :: mapSet rest k v

/-- The `PositionReport` branch of the ws message handler (after the
lat/lon and MMSI checks succeeded): builds `next` by merging with the
previous `MMSI:`-keyed record, stores it under the MMSI key, and
refreshes the `IMO:` mirror when an IMO is already known. -/
def applyPosition (st : Store) (mmsi : String) (lat lon : ℝ)
    (sog cog : Option ℝ) (now : String) : Store :=
  let prev := mapGet st (.MMSI mmsi)
  let next : AisPosition :=
    { imo := prev.bind AisPosition.imo
      mmsi := some mmsi
      lat := lat
      lon := lon
      sog := match sog with | some s => some s | none => prev.bind AisPosition.sog
      cog := match cog with | some c => some c | none => prev.bind AisPosition.cog
      lastSeenISO := now }
  let st1 := mapSet st (.MMSI mmsi) next
  match next.imo with
  | some i => if matchesImoPattern i then mapSet st1 (.IMO i) next else st1
  | none => st1

/-- The `ShipStaticData` branch of the ws message handler (after the MMSI
check succeeded), with `imo` the output of `pickImo`: when an
`MMSI:`-keyed record exists, patches it (`imo: imo ?? rec.imo`) and
mirrors it under the `IMO:` key when that IMO matches the 7-digit
pattern; otherwise no change. -/
def applyStatic (st : Store) (mmsi : String) (imo : Option String)
    (now : String) : Store :=
  match mapGet st (.MMSI mmsi) with
  | none => st
  | some rec =>
    let patched : AisPosition :=
      { rec with
        mmsi := some mmsi
        imo := match imo with | some i => some i | none => rec.imo
        lastSeenISO := now }
    let st1 := mapSet st (.MMSI mmsi) patched
    match patched.imo with
    | some i => if matchesImoPattern i then mapSet st1 (.IMO i) patched else st1
    | none => st1

/-- A parsed inbound frame, after `decodeWsData`, `JSON.parse` and the
`MessageType` dispatch: the fields carried are the outputs of the probing
helpers (`pickLatLon`, `pickMmsi`, the raw sog/cog fields, the IMO
candidate). `other` covers every frame that is empty, unparseable, or of
another message type — all of which leave the store unchanged. -/
inductive AisMsg where
  | positionReport (latlon : Option (ℝ × ℝ)) (mmsi : Option String)
      (sogRaw cogRaw : RawVal)
  | shipStaticData (mmsi : Option String) (imoRaw : Option String)
  | other

/-- The store-mutating effect of one parsed frame, following the two
branches of the ws message handler: a position report is dropped unless
`pickLatLon` succeeded and the MMSI matches `/^\d{9}$/`; a static frame
is dropped unless its MMSI matches. -/
def handleMsg (st : Store) (msg : AisMsg) (now : String) : Store :=
  match msg with
  | .positionReport ll mm sogRaw cogRaw =>
    match ll with
    | none => st
    | some (lat, lon) =>
      match mm with
      | none => st
      | some m =>
        if matchesMmsiPattern m then
          let sc := pickSogCog sogRaw cogRaw
          applyPosition st m lat lon sc.1 sc.2 now
        else st
  | .shipStaticData mm imoRaw =>
    match mm with
    | none => st
    | some m =>
      if matchesMmsiPattern m then applyStatic st m (pickImo imoRaw) now
      else st
  | .other => st

/-- Row type `SnapshotRow = AisPosition` extended with `distanceMi`. -/
structure SnapshotRow extends AisPosition where
  distanceMi : ℝ

/-- The snapshot loop of `GET`: one row per `positionsByKey` entry (in
iteration order), each row carrying `haversineMiles(cityHall, v)` as
`distanceMi`, then `rows.sort((a, b) => a.distanceMi - b.distanceMi)` —
a stable ascending sort by `distanceMi`, modelled as a merge sort. -/
noncomputable def snapshotRows (ps : Store) (cityLat cityLon : ℝ) :
    List SnapshotRow :=
  let rows := (ps.map Prod.snd).map (fun v =>
    { toAisPosition := v
      distanceMi := haversineMiles cityLat cityLon v.lat v.lon })
  rows.mergeSort (fun a b => decide (a.distanceMi ≤ b.distanceMi))

/-- A bounding box `[[[swLat, swLon], [neLat, neLon]]]`. The corner
literals are decimal constants only ever compared for equality through
their `JSON.stringify` string (which is injective on them), so they are
modelled as rationals with decidable equality. -/
structure BBoxQ where
  swLat : ℚ
  swLon : ℚ
  neLat : ℚ
  neLon : ℚ
deriving DecidableEq

/-- The result of `presetConfig`: preset name, reference point
(`cityHall`), bounding box. -/
structure PresetCfg where
  preset : String
  cityLat : ℝ
  cityLon : ℝ
  bbox : BBoxQ

/-- Function `presetConfig(presetRaw)` from the source: `"ny"` selects the New
York preset, anything else (including a missing or empty parameter,
which is falsy) the Savannah default. -/
def presetConfig (presetRaw : Option String) : PresetCfg :=
  let base := match presetRaw with
    | none => "sav"
    | some s => if s = "" then "sav" else s
  let preset := base.toLower
  if preset = "ny" then
    { preset := "ny", cityLat := 40.7128, cityLon := -74.006
      bbox := ⟨40.45, -74.35, 40.95, -73.6⟩ }
  else
    { preset := "sav", cityLat := 32.08077, cityLon := -81.0903
      bbox := ⟨31.968366, -81.169962, 32.165465, -80.762266⟩ }

/-- A WebSocket handle: an identity (to distinguish socket instances)
and its `readyState` (`0` CONNECTING, `1` OPEN, `2` CLOSING, `3`
CLOSED). -/
structure SocketT where
  id : Nat
  readyState : Nat
deriving DecidableEq

/-- The `globalThis.__AISSTREAM__` singleton (minus the unmodelled debug
preview fields). -/
structure GlobalState where
  ws : Option SocketT
  lastConnectISO : Option String
  lastMessageISO : Option String
  lastError : Option String
  bboxKey : Option BBoxQ
  positionsByKey : Store

/-- Function `closeWs(store)`: closes the socket (ignoring errors) and clears the
registration: `store.ws = null`. -/
def closeWs (gs : GlobalState) : GlobalState := { gs with ws := none }

/-- The state effect of `connectIfNeeded(bbox)`.
`apiKey` models `process.env.AISSTREAM_API_KEY` (`none` = missing or
empty, which is falsy); `newId` is the identity of the WebSocket that
would be constructed if a connect happens; `now` the current timestamp.
Throwing is modelled as `Except.error` carrying the error message. -/
def connectIfNeeded (gs : GlobalState) (apiKey : Option String)
    (bbox : BBoxQ) (now : String) (newId : Nat) :
    Except String GlobalState :=
  match apiKey with
  | none => .error "Missing AISSTREAM_API_KEY in environment."
  | some _ =>
    let gs1 := match gs.bboxKey with
      | some k =>
        if k ≠ bbox then
          let g := closeWs gs
          { g with positionsByKey := [], lastMessageISO := none,
                   lastError := none }
        else gs
      | none => gs
    let gs2 := { gs1 with bboxKey := some bbox }
    match gs2.ws with
    | some w =>
      if w.readyState = 0 ∨ w.readyState = 1 then .ok gs2
      else .ok { gs2 with ws := some ⟨newId, 0⟩,
                          lastConnectISO := some now, lastError := none }
    | none =>
      .ok { gs2 with ws := some ⟨newId, 0⟩,
                     lastConnectISO := some now, lastError := none }

set_option linter.unusedVariables false in
/-- The global-state effect of the ws `message` event callback, once the
frame has been decoded and parsed into `msg`: stamps
`lastMessageISO` and applies the frame to `positionsByKey`.
`fromSocket` is the identity of the socket whose event fired (each
socket instance gets its own copy of this handler); the handler body,
as in the source, never consults it. -/
def deliver (gs : GlobalState) (fromSocket : Nat) (msg : AisMsg)
    (now : String) : GlobalState :=
  { gs with lastMessageISO := some now,
            positionsByKey := handleMsg gs.positionsByKey msg now }

/-- The `ok: true` response body of `GET`. -/
structure SuccessBody where
  ok : Bool
  preset : String
  cityLat : ℝ
  cityLon : ℝ
  bbox : BBoxQ
  lastConnectISO : Option String
  lastMessageISO : Option String
  lastError : Option String
  wsReadyState : Option Nat
  count : Nat
  vessels : List SnapshotRow

/-- The `ok: false` (HTTP 500) response body of `GET`'s catch branch. -/
structure FailureBody where
  ok : Bool
  error : String
  lastConnectISO : Option String
  lastMessageISO : Option String
  lastError : Option String
  wsReadyState : Option Nat
  status : Nat

/-- A `GET` outcome: the JSON response plus the global state as left by
the handler. -/
inductive GetResult where
  | success (body : SuccessBody) (state : GlobalState)
  | failure (body : FailureBody) (state : GlobalState)

/-- The `GET` handler: resolve the preset, `connectIfNeeded`, build the
snapshot rows, sort, and answer with `vessels: rows.slice(0, 200)` and
`count: rows.length`; any thrown error is caught and turned into the
structured `ok: false` body (status 500) carrying the diagnostics read
from the store. The missing-key throw happens before any mutation, so
the catch branch reads the untouched state. -/
noncomputable def GET (gs : GlobalState) (apiKey : Option String)
    (presetRaw : Option String) (now : String) (newId : Nat) : GetResult :=
  let pc := presetConfig presetRaw
  match connectIfNeeded gs apiKey pc.bbox now newId with
  | .error e =>
    .failure
      { ok := false
        error := e
        lastConnectISO := gs.lastConnectISO
        lastMessageISO := gs.lastMessageISO
        lastError := gs.lastError
        wsReadyState := gs.ws.map SocketT.readyState
        status := 500 } gs
  | .ok gs2 =>
    let rows := snapshotRows gs2.positionsByKey pc.cityLat pc.cityLon
    .success
      { ok := true
        preset := pc.preset
        cityLat := pc.cityLat
        cityLon := pc.cityLon
        bbox := pc.bbox
        lastConnectISO := gs2.lastConnectISO
        lastMessageISO := gs2.lastMessageISO
        lastError := gs2.lastError
        wsReadyState := gs2.ws.map SocketT.readyState
        count := rows.length
        vessels := rows.take 200 } gs2

/-! ### Map lemmas -/

theorem mapGet_mapSet_self (m : Store) (k : StoreKey) (v : AisPosition) :
    mapGet (mapSet m k v) k = some v := by
  induction m with
  | nil => simp [mapGet, mapSet]
  | cons hd tl ih =>
    obtain ⟨k', v'⟩ := hd
    by_cases h : k' = k
    · simp [mapGet, mapSet, h]
    · simp [mapGet, mapSet, h, ih]

theorem mapGet_mapSet_ne (m : Store) (k k2 : StoreKey) (v : AisPosition)
    (h : k ≠ k2) : mapGet (mapSet m k v) k2 = mapGet m k2 := by
  induction m with
  | nil => simp [mapGet, mapSet, h]
  | cons hd tl ih =>
    obtain ⟨k', v'⟩ := hd
    by_cases hk : k' = k
    · subst hk
      simp [mapGet, mapSet, h]
    · simp only [mapSet, if_neg hk]
      by_cases hk2 : k' = k2
      · simp [mapGet, hk2]
      · simp [mapGet, hk2, ih]

theorem mapGet_applyPosition_self (st : Store) (m : String) (lat lon : ℝ)
    (sog cog : Option ℝ) (now : String) :
    mapGet (applyPosition st m lat lon sog cog now) (.MMSI m) =
      some { imo := (mapGet st (.MMSI m)).bind AisPosition.imo
             mmsi := some m
             lat := lat
             lon := lon
             sog := match sog with
               | some s => some s
               | none => (mapGet st (.MMSI m)).bind AisPosition.sog
             cog := match cog with
               | some c => some c
               | none => (mapGet st (.MMSI m)).bind AisPosition.cog
             lastSeenISO := now } := by
  unfold applyPosition
  dsimp only
  cases h : (mapGet st (StoreKey.MMSI m)).bind AisPosition.imo with
  | none => rw [mapGet_mapSet_self]
  | some i =>
    dsimp only
    by_cases hi : matchesImoPattern i = true
    · rw [if_pos hi, mapGet_mapSet_ne _ _ _ _ (by simp), mapGet_mapSet_self]
    · rw [if_neg hi, mapGet_mapSet_self]

theorem mapGet_applyPosition_other (st : Store) (m : String) (lat lon : ℝ)
    (sog cog : Option ℝ) (now : String) (m2 : String) (hne : m ≠ m2) :
    mapGet (applyPosition st m lat lon sog cog now) (.MMSI m2) =
      mapGet st (.MMSI m2) := by
  unfold applyPosition
  dsimp only
  have hkey : StoreKey.MMSI m ≠ StoreKey.MMSI m2 := by
    intro h
    exact hne (by injection h)
  cases h : (mapGet st (StoreKey.MMSI m)).bind AisPosition.imo with
  | none => rw [mapGet_mapSet_ne _ _ _ _ hkey]
  | some i =>
    dsimp only
    by_cases hi : matchesImoPattern i = true
    · rw [if_pos hi, mapGet_mapSet_ne _ _ _ _ (by simp),
        mapGet_mapSet_ne _ _ _ _ hkey]
    · rw [if_neg hi, mapGet_mapSet_ne _ _ _ _ hkey]

theorem mapGet_applyStatic_some (st : Store) (m : String)
    (rec : AisPosition) (imo : Option String) (now : String)
    (hr : mapGet st (.MMSI m) = some rec) :
    mapGet (applyStatic st m imo now) (.MMSI m) =
      some { rec with
             mmsi := some m
             imo := match imo with | some i => some i | none => rec.imo
             lastSeenISO := now } := by
  unfold applyStatic
  rw [hr]
  dsimp only
  cases himo : (match imo with | some i => some i | none => rec.imo) with
  | none => rw [mapGet_mapSet_self]
  | some i =>
    dsimp only
    by_cases hi : matchesImoPattern i = true
    · rw [if_pos hi, mapGet_mapSet_ne _ _ _ _ (by simp), mapGet_mapSet_self]
    · rw [if_neg hi, mapGet_mapSet_self]

theorem mapGet_applyStatic_other (st : Store) (m : String)
    (imo : Option String) (now : String) (m2 : String) (hne : m ≠ m2) :
    mapGet (applyStatic st m imo now) (.MMSI m2) = mapGet st (.MMSI m2) := by
  unfold applyStatic
  have hkey : StoreKey.MMSI m ≠ StoreKey.MMSI m2 := by
    intro h
    exact hne (by injection h)
  cases hr : mapGet st (StoreKey.MMSI m) with
  | none => rfl
  | some rec =>
    dsimp only
    cases himo : (match imo with | some i => some i | none => rec.imo) with
    | none => rw [mapGet_mapSet_ne _ _ _ _ hkey]
    | some i =>
      dsimp only
      by_cases hi : matchesImoPattern i = true
      · rw [if_pos hi, mapGet_mapSet_ne _ _ _ _ (by simp),
          mapGet_mapSet_ne _ _ _ _ hkey]
      · rw [if_neg hi, mapGet_mapSet_ne _ _ _ _ hkey]

/-! ### Geo utilities (C4) -/

theorem toRad_zero : toRad 0 = 0 := by
  simp [toRad]

theorem atan2_zero_one : atan2 0 1 = 0 := by
  simp [atan2]

/-- C4. For every point `p`, `haversineMiles p p = 0`, and for every pair
of points `a`, `b`, `haversineMiles a b = haversineMiles b a`: the pure
haversine great-circle distance with Earth radius 3958.7613 miles is
zero on identical points and symmetric. -/
theorem haversineMiles_self_eq_zero_and_symm :
    (∀ lat lon : ℝ, haversineMiles lat lon lat lon = 0) ∧
    (∀ lat1 lon1 lat2 lon2 : ℝ,
      haversineMiles lat1 lon1 lat2 lon2 = haversineMiles lat2 lon2 lat1 lon1) := by
  constructor
  · intro lat lon
    simp only [haversineMiles, sub_self, toRad_zero]
    rw [show (0 : ℝ) / 2 = 0 by norm_num, Real.sin_zero]
    rw [show ((0 : ℝ) ^ 2 + Real.cos (toRad lat) * Real.cos (toRad lat) * 0 ^ 2) = 0 by ring]
    rw [Real.sqrt_zero, show (1 : ℝ) - 0 = 1 by norm_num, Real.sqrt_one,
      atan2_zero_one]
    ring
  · intro lat1 lon1 lat2 lon2
    simp only [haversineMiles]
    have hlat : Real.sin (toRad (lat1 - lat2) / 2) ^ 2 =
        Real.sin (toRad (lat2 - lat1) / 2) ^ 2 := by
      have : toRad (lat1 - lat2) = -toRad (lat2 - lat1) := by
        simp [toRad]; ring
      rw [this, neg_div, Real.sin_neg]
      ring
    have hlon : Real.sin (toRad (lon1 - lon2) / 2) ^ 2 =
        Real.sin (toRad (lon2 - lon1) / 2) ^ 2 := by
      have : toRad (lon1 - lon2) = -toRad (lon2 - lon1) := by
        simp [toRad]; ring
      rw [this, neg_div, Real.sin_neg]
      ring
    rw [hlat, hlon, mul_comm (Real.cos (toRad lat2)) (Real.cos (toRad lat1))]

/-! ### Course-over-ground handling (C1) -/

/-- C1 counterexample. Feeding a position frame whose decoded
course-over-ground is the invalid sentinel 511 (also outside [0, 360])
to an empty store yields a record whose `cog` is `some 511`: the value
IS stored, contradicting the claim that it is treated as absent. -/
theorem cog_sentinel_511_is_stored :
    (mapGet
      (handleMsg []
        (.positionReport (some (32.0809, -81.0912)) (some "366123456")
          (.num 5.2) (.num 511)) "t0")
      (.MMSI "366123456")).map AisPosition.cog = some (some 511) ∧
    ¬ ((511 : ℝ) ≤ 360) := by
  refine ⟨rfl, by norm_num⟩

/-- C1 amended. `pickSogCog` filters a course-over-ground value only on
finiteness: every finite numeric cog — including 511 and values outside
[0, 360] — is stored verbatim as the record's `cog`; only a missing,
empty, or non-numeric raw field is treated as absent. -/
theorem cog_finite_always_stored (st : Store) (m : String) (lat lon : ℝ)
    (sogRaw : RawVal) (x : ℝ) (now : String)
    (hm : matchesMmsiPattern m = true) :
    (mapGet
      (handleMsg st (.positionReport (some (lat, lon)) (some m) sogRaw (.num x)) now)
      (.MMSI m)).map AisPosition.cog = some (some x) := by
  simp only [handleMsg, hm, if_true, pickSogCog, rawToOpt]
  unfold applyPosition
  dsimp only
  cases h : (mapGet st (StoreKey.MMSI m)).bind AisPosition.imo with
  | none =>
    simp only [h, mapGet_mapSet_self]
    rfl
  | some i =>
    simp only [h]
    by_cases hi : matchesImoPattern i = true
    · rw [if_pos hi, mapGet_mapSet_ne _ _ _ _ (by simp), mapGet_mapSet_self]
      rfl
    · rw [if_neg hi, mapGet_mapSet_self]
      rfl

/-- C1 amended, witness: a finite out-of-range cog (720) fed to an empty
store is stored verbatim. -/
theorem cog_finite_always_stored_witness :
    matchesMmsiPattern "366123456" = true ∧
    (mapGet
      (handleMsg []
        (.positionReport (some ((0 : ℝ), 0)) (some "366123456")
          .nullish (.num 720)) "t")
      (.MMSI "366123456")).map AisPosition.cog = some (some 720) :=
  ⟨by decide, cog_finite_always_stored [] "366123456" 0 0 .nullish 720 "t" (by decide)⟩

/-! ### Partial-update merge (C5) -/

/-- C5. When an MMSI already has a record with `sog` and `cog` set,
a later position update for that MMSI replaces only the fields it
carries: if the update omits `sog` (resp. `cog`), the previous value is
kept, and the previously learned `imo` is always carried over. -/
theorem position_update_preserves_omitted_fields
    (st : Store) (m : String) (r : AisPosition) (x y : ℝ)
    (lat lon : ℝ) (sogu cogu : Option ℝ) (now : String)
    (hr : mapGet st (.MMSI m) = some r)
    (hs : r.sog = some x) (hc : r.cog = some y) :
    (mapGet (applyPosition st m lat lon sogu cogu now) (.MMSI m)).map
        AisPosition.imo = some r.imo ∧
    (sogu = none →
      (mapGet (applyPosition st m lat lon sogu cogu now) (.MMSI m)).map
        AisPosition.sog = some (some x)) ∧
    (cogu = none →
      (mapGet (applyPosition st m lat lon sogu cogu now) (.MMSI m)).map
        AisPosition.cog = some (some y)) := by
  rw [mapGet_applyPosition_self, hr]
  refine ⟨rfl, ?_, ?_⟩
  · rintro rfl
    simp [hs]
  · rintro rfl
    simp [hc]

/-- C5 witness: after a position update with `sog = 5.2`, `cog = 180`,
a second update omitting both keeps them (and the absent `imo`). -/
theorem position_update_preserves_omitted_fields_witness :
    mapGet (applyPosition [] "366123456" 1 2 (some 5.2) (some 180) "t1")
        (.MMSI "366123456") =
      some { imo := none, mmsi := some "366123456", lat := 1, lon := 2,
             sog := some 5.2, cog := some 180, lastSeenISO := "t1" } ∧
    (mapGet
        (applyPosition
          (applyPosition [] "366123456" 1 2 (some 5.2) (some 180) "t1")
          "366123456" 3 4 none none "t2")
        (.MMSI "366123456")).map AisPosition.imo = some none ∧
    (mapGet
        (applyPosition
          (applyPosition [] "366123456" 1 2 (some 5.2) (some 180) "t1")
          "366123456" 3 4 none none "t2")
        (.MMSI "366123456")).map AisPosition.sog = some (some 5.2) ∧
    (mapGet
        (applyPosition
          (applyPosition [] "366123456" 1 2 (some 5.2) (some 180) "t1")
          "366123456" 3 4 none none "t2")
        (.MMSI "366123456")).map AisPosition.cog = some (some 180) := by
  have h := position_update_preserves_omitted_fields
    (applyPosition [] "366123456" 1 2 (some 5.2) (some 180) "t1")
    "366123456"
    { imo := none, mmsi := some "366123456", lat := 1, lon := 2,
      sog := some 5.2, cog := some 180, lastSeenISO := "t1" }
    5.2 180 3 4 none none "t2" rfl rfl rfl
  exact ⟨rfl, h.1, h.2.1 rfl, h.2.2 rfl⟩

/-! ### IMO monotonicity (C6) -/

/-- The IMO currently associated with an MMSI: `positionsByKey.get` of the
MMSI key, projected on `imo`. -/
def getImo (st : Store) (m : String) : Option String :=
  (mapGet st (.MMSI m)).bind AisPosition.imo

/-- The validated IMO a frame carries into the store: position reports
never carry one (the `PositionReport` branch never consults `pickImo`),
and a static frame carries `pickImo` of its candidate. -/
def staticImoOf : AisMsg → Option String
  | .shipStaticData _ imoRaw => pickImo imoRaw
  | _ => none

theorem getImo_handleMsg_preserved (st : Store) (msg : AisMsg)
    (now : String) (m i : String)
    (him : getImo st m = some i) (hmsg : staticImoOf msg = none) :
    getImo (handleMsg st msg now) m = some i := by
  cases msg with
  | positionReport ll mm sogRaw cogRaw =>
    match ll with
    | none => exact him
    | some (lat, lon) =>
      match mm with
      | none => exact him
      | some m2 =>
        show getImo (if matchesMmsiPattern m2 then _ else st) m = some i
        by_cases hp : matchesMmsiPattern m2 = true
        · rw [if_pos hp]
          by_cases hm : m2 = m
          · subst hm
            unfold getImo
            rw [mapGet_applyPosition_self]
            simpa [getImo] using him
          · unfold getImo
            rw [mapGet_applyPosition_other _ _ _ _ _ _ _ _ hm]
            exact him
        · rw [if_neg hp]
          exact him
  | shipStaticData mm imoRaw =>
    have hpick : pickImo imoRaw = none := hmsg
    match mm with
    | none => exact him
    | some m2 =>
      show getImo (if matchesMmsiPattern m2 then _ else st) m = some i
      by_cases hp : matchesMmsiPattern m2 = true
      · rw [if_pos hp]
        by_cases hm : m2 = m
        · subst hm
          obtain ⟨r, hr, hri⟩ : ∃ r, mapGet st (.MMSI m2) = some r ∧
              r.imo = some i := by
            unfold getImo at him
            cases hg : mapGet st (.MMSI m2) with
            | none => rw [hg] at him; simp at him
            | some r => rw [hg] at him; exact ⟨r, rfl, him⟩
          unfold getImo
          rw [mapGet_applyStatic_some _ _ _ _ _ hr, hpick]
          simpa using hri
        · unfold getImo
          rw [mapGet_applyStatic_other _ _ _ _ _ hm]
          exact him
      · rw [if_neg hp]
        exact him
  | other => exact him

/-- C6. Once an IMO has been learned for an MMSI, no later sequence of
messages carrying no validated IMO — position reports (which never carry
one), static frames whose IMO candidate is absent or rejected by the
7-digit pattern, and ignored frames — ever erases or replaces the
association. -/
theorem learned_imo_never_erased
    (msgs : List (AisMsg × String)) (st : Store) (m i : String)
    (him : getImo st m = some i)
    (hmsgs : ∀ p ∈ msgs, staticImoOf p.1 = none) :
    getImo (msgs.foldl (fun s p => handleMsg s p.1 p.2) st) m = some i := by
  induction msgs generalizing st with
  | nil => exact him
  | cons hd tl ih =>
    exact ih (handleMsg st hd.1 hd.2)
      (getImo_handleMsg_preserved st hd.1 hd.2 m i him
        (hmsgs hd (List.mem_cons_self hd tl)))
      (fun p hp => hmsgs p (List.mem_cons_of_mem hd hp))

/-- C6 witness: with IMO `9123456` learned for MMSI `366123456`, a
position update without IMO, a static frame with no IMO candidate, and
a static frame whose candidate fails the 7-digit pattern all leave the
association intact. -/
theorem learned_imo_never_erased_witness :
    getImo
      (applyStatic (applyPosition [] "366123456" 1 2 none none "t1")
        "366123456" (some "9123456") "t2") "366123456" = some "9123456" ∧
    (∀ p ∈ ([(AisMsg.positionReport (some ((3 : ℝ), 4)) (some "366123456")
               RawVal.nullish RawVal.nullish, "t3"),
             (AisMsg.shipStaticData (some "366123456") none, "t4"),
             (AisMsg.shipStaticData (some "366123456") (some "12345"), "t5")] :
        List (AisMsg × String)), staticImoOf p.1 = none) ∧
    getImo
      (([(AisMsg.positionReport (some ((3 : ℝ), 4)) (some "366123456")
            RawVal.nullish RawVal.nullish, "t3"),
         (AisMsg.shipStaticData (some "366123456") none, "t4"),
         (AisMsg.shipStaticData (some "366123456") (some "12345"), "t5")] :
        List (AisMsg × String)).foldl (fun s p => handleMsg s p.1 p.2)
        (applyStatic (applyPosition [] "366123456" 1 2 none none "t1")
          "366123456" (some "9123456") "t2")) "366123456" = some "9123456" := by
  have hmsgs : ∀ p ∈ ([(AisMsg.positionReport (some ((3 : ℝ), 4))
        (some "366123456") RawVal.nullish RawVal.nullish, "t3"),
       (AisMsg.shipStaticData (some "366123456") none, "t4"),
       (AisMsg.shipStaticData (some "366123456") (some "12345"), "t5")] :
      List (AisMsg × String)), staticImoOf p.1 = none := by
    intro p hp
    simp only [List.mem_cons, List.not_mem_nil, or_false] at hp
    rcases hp with rfl | rfl | rfl <;> rfl
  exact ⟨rfl, hmsgs,
    learned_imo_never_erased _ _ "366123456" "9123456" rfl hmsgs⟩

/-! ### IMO mirror consistency (C7) -/

/-- C7. After a static update carrying a valid 7-digit IMO for an MMSI
that already has a position record, looking the store up by the IMO key
and by the MMSI key returns the same record (hence equal position and
motion fields); and after any subsequent position update for that MMSI
the mirror is refreshed so the two lookups again agree — the mirror is
never anything but a copy of the MMSI record. -/
theorem imo_mirror_matches_mmsi_record
    (st : Store) (m i : String) (r : AisPosition) (now : String)
    (lat lon : ℝ) (sogu cogu : Option ℝ) (now2 : String)
    (hr : mapGet st (.MMSI m) = some r)
    (hi : matchesImoPattern i = true) :
    mapGet (applyStatic st m (some i) now) (.IMO i) =
      mapGet (applyStatic st m (some i) now) (.MMSI m) ∧
    mapGet (applyPosition (applyStatic st m (some i) now) m lat lon
        sogu cogu now2) (.IMO i) =
      mapGet (applyPosition (applyStatic st m (some i) now) m lat lon
        sogu cogu now2) (.MMSI m) := by
  have hS : mapGet (applyStatic st m (some i) now) (.MMSI m) =
      some { r with mmsi := some m, imo := some i, lastSeenISO := now } :=
    mapGet_applyStatic_some st m r (some i) now hr
  constructor
  · unfold applyStatic
    rw [hr]
    dsimp only
    rw [if_pos hi, mapGet_mapSet_self,
      mapGet_mapSet_ne _ _ _ _ (by simp), mapGet_mapSet_self]
  · unfold applyPosition
    dsimp only
    rw [hS]
    dsimp only [Option.some_bind]
    rw [if_pos hi, mapGet_mapSet_self,
      mapGet_mapSet_ne _ _ _ _ (by simp), mapGet_mapSet_self]

/-- C7 witness: position update for MMSI `366123456`, then a static
update with IMO `9123456`, then another position update; after the
static update and after the later position update the IMO-keyed and
MMSI-keyed lookups agree. -/
theorem imo_mirror_matches_mmsi_record_witness :
    mapGet (applyPosition [] "366123456" 1 2 (some 5.2) (some 180) "t1")
        (.MMSI "366123456") =
      some { imo := none, mmsi := some "366123456", lat := 1, lon := 2,
             sog := some 5.2, cog := some 180, lastSeenISO := "t1" } ∧
    matchesImoPattern "9123456" = true ∧
    (mapGet (applyStatic
        (applyPosition [] "366123456" 1 2 (some 5.2) (some 180) "t1")
        "366123456" (some "9123456") "t2") (.IMO "9123456") =
      mapGet (applyStatic
        (applyPosition [] "366123456" 1 2 (some 5.2) (some 180) "t1")
        "366123456" (some "9123456") "t2") (.MMSI "366123456")) ∧
    (mapGet (applyPosition (applyStatic
        (applyPosition [] "366123456" 1 2 (some 5.2) (some 180) "t1")
        "366123456" (some "9123456") "t2") "366123456" 3 4 none none "t3")
        (.IMO "9123456") =
      mapGet (applyPosition (applyStatic
        (applyPosition [] "366123456" 1 2 (some 5.2) (some 180) "t1")
        "366123456" (some "9123456") "t2") "366123456" 3 4 none none "t3")
        (.MMSI "366123456")) := by
  have h := imo_mirror_matches_mmsi_record
    (applyPosition [] "366123456" 1 2 (some 5.2) (some 180) "t1")
    "366123456" "9123456"
    { imo := none, mmsi := some "366123456", lat := 1, lon := 2,
      sog := some 5.2, cog := some 180, lastSeenISO := "t1" }
    "t2" 3 4 none none "t3" rfl (by decide)
  exact ⟨rfl, by decide, h.1, h.2⟩

/-! ### Snapshot enumeration (C2, C3) -/

/-- C2 counterexample. After one position report and one static frame
with a valid IMO for the same single vessel (MMSI `366123456`), the
snapshot loop — which iterates over all `positionsByKey` values —
returns two rows for that vessel: the `IMO:`-keyed mirror is counted in
addition to the `MMSI:`-keyed entry, contradicting deduplication. -/
theorem snapshot_double_counts_imo_mirror :
    ((snapshotRows
        (handleMsg
          (handleMsg []
            (.positionReport (some (32.0809, -81.0912)) (some "366123456")
              (.num 5.2) (.num 180)) "t1")
          (.shipStaticData (some "366123456") (some "9123456")) "t2")
        32.08077 (-81.0903)).countP
      (fun row => row.mmsi == some "366123456")) = 2 := by
  unfold snapshotRows
  dsimp only
  rw [List.Perm.countP_eq _ (List.mergeSort_perm _ _)]
  rfl

/-- C2 amended. The snapshot enumerates every store entry — the
`MMSI:`-keyed records and the `IMO:`-keyed mirrors alike — yielding
exactly one row per map entry with no deduplication; a vessel whose IMO
has been learned therefore appears twice. -/
theorem snapshot_row_per_store_entry (ps : Store) (cityLat cityLon : ℝ) :
    (snapshotRows ps cityLat cityLon).length = ps.length := by
  unfold snapshotRows
  simp

/-- C3. For every store state and preset, each returned row's
`distanceMi` equals `haversineMiles` of the preset's reference point and
the row's `lat`/`lon` (computed at query time), the rows are pairwise
ascending in `distanceMi`, and the returned list (`rows.slice(0, 200)`,
as served in `GET`'s `vessels`) has at most 200 entries. -/
theorem snapshot_distance_sorted_truncated (ps : Store)
    (presetRaw : Option String) :
    (∀ row ∈ (snapshotRows ps (presetConfig presetRaw).cityLat
        (presetConfig presetRaw).cityLon).take 200,
      row.distanceMi = haversineMiles (presetConfig presetRaw).cityLat
        (presetConfig presetRaw).cityLon row.lat row.lon) ∧
    ((snapshotRows ps (presetConfig presetRaw).cityLat
        (presetConfig presetRaw).cityLon).take 200).Pairwise
      (fun a b => a.distanceMi ≤ b.distanceMi) ∧
    ((snapshotRows ps (presetConfig presetRaw).cityLat
        (presetConfig presetRaw).cityLon).take 200).length ≤ 200 := by
  refine ⟨?_, ?_, ?_⟩
  · intro row hrow
    have h1 := List.mem_of_mem_take hrow
    unfold snapshotRows at h1
    rw [List.mem_mergeSort] at h1
    simp only [List.mem_map] at h1
    obtain ⟨v, _, rfl⟩ := h1
    rfl
  · apply List.Pairwise.sublist (List.take_sublist _ _)
    have hs := @List.sorted_mergeSort SnapshotRow
      (fun a b : SnapshotRow => decide (a.distanceMi ≤ b.distanceMi))
      (fun a b c hab hbc => decide_eq_true
        (le_trans (of_decide_eq_true hab) (of_decide_eq_true hbc)))
      (fun a b => by
        rcases le_total a.distanceMi b.distanceMi with h | h <;>
          simp [h])
      ((ps.map Prod.snd).map (fun v =>
        { toAisPosition := v
          distanceMi := haversineMiles (presetConfig presetRaw).cityLat
            (presetConfig presetRaw).cityLon v.lat v.lon }))
    unfold snapshotRows
    exact hs.imp (fun h => of_decide_eq_true h)
  · simp [List.length_take]

/-- C3 witness: instantiation at a concrete one-vessel store and the
default preset. -/
theorem snapshot_distance_sorted_truncated_witness :
    (∀ row ∈ (snapshotRows
        [(.MMSI "366123456",
          { imo := none, mmsi := some "366123456", lat := 32, lon := -81,
            sog := none, cog := none, lastSeenISO := "t1" })]
        (presetConfig none).cityLat (presetConfig none).cityLon).take 200,
      row.distanceMi = haversineMiles (presetConfig none).cityLat
        (presetConfig none).cityLon row.lat row.lon) ∧
    ((snapshotRows
        [(.MMSI "366123456",
          { imo := none, mmsi := some "366123456", lat := 32, lon := -81,
            sog := none, cog := none, lastSeenISO := "t1" })]
        (presetConfig none).cityLat (presetConfig none).cityLon).take
      200).length ≤ 200 := by
  have h := snapshot_distance_sorted_truncated
    [(.MMSI "366123456",
      { imo := none, mmsi := some "366123456", lat := 32, lon := -81,
        sog := none, cog := none, lastSeenISO := "t1" })] none
  exact ⟨h.1, h.2.2⟩

/-! ### Bounding-box change (C8) -/

/-- C8. When `connectIfNeeded` runs with a bounding box different from
the currently subscribed one (and the API key is present), the old
socket is unregistered and replaced by a fresh one, the whole
reconciliation store is cleared, and the new bounding box is recorded as
the subscription target; a snapshot of the cleared store is empty, so it
contains none of the previously tracked vessels. -/
theorem bbox_change_clears_store
    (gs : GlobalState) (k bbox : BBoxQ) (keyVal now : String) (newId : Nat)
    (hk : gs.bboxKey = some k) (hne : k ≠ bbox) :
    connectIfNeeded gs (some keyVal) bbox now newId =
      .ok { ws := some ⟨newId, 0⟩, lastConnectISO := some now,
            lastMessageISO := none, lastError := none,
            bboxKey := some bbox, positionsByKey := [] } ∧
    (∀ cityLat cityLon : ℝ, snapshotRows [] cityLat cityLon = []) := by
  constructor
  · unfold connectIfNeeded closeWs
    rw [hk]
    dsimp only
    rw [if_pos hne]
  · intro cityLat cityLon
    unfold snapshotRows
    simp

/-- C8 witness: a store tracking one Savannah-region vessel, reconnected
with the New York bounding box, comes back empty with the new bbox
recorded. -/
theorem bbox_change_clears_store_witness :
    ({ ws := some ⟨1, 1⟩, lastConnectISO := some "c",
       lastMessageISO := some "m", lastError := none,
       bboxKey := some ⟨31.968366, -81.169962, 32.165465, -80.762266⟩,
       positionsByKey :=
         [(.MMSI "366123456",
           { imo := none, mmsi := some "366123456", lat := 32, lon := -81,
             sog := none, cog := none, lastSeenISO := "t1" })] } :
      GlobalState).bboxKey =
        some ⟨31.968366, -81.169962, 32.165465, -80.762266⟩ ∧
    (⟨31.968366, -81.169962, 32.165465, -80.762266⟩ : BBoxQ) ≠
      ⟨40.45, -74.35, 40.95, -73.6⟩ ∧
    connectIfNeeded
      { ws := some ⟨1, 1⟩, lastConnectISO := some "c",
        lastMessageISO := some "m", lastError := none,
        bboxKey := some ⟨31.968366, -81.169962, 32.165465, -80.762266⟩,
        positionsByKey :=
          [(.MMSI "366123456",
            { imo := none, mmsi := some "366123456", lat := 32, lon := -81,
              sog := none, cog := none, lastSeenISO := "t1" })] }
      (some "key") ⟨40.45, -74.35, 40.95, -73.6⟩ "t2" 7 =
      .ok { ws := some ⟨7, 0⟩, lastConnectISO := some "t2",
            lastMessageISO := none, lastError := none,
            bboxKey := some ⟨40.45, -74.35, 40.95, -73.6⟩,
            positionsByKey := [] } := by
  have hne : (⟨31.968366, -81.169962, 32.165465, -80.762266⟩ : BBoxQ) ≠
      ⟨40.45, -74.35, 40.95, -73.6⟩ := by
    intro h
    have h1 := congrArg BBoxQ.swLat h
    norm_num at h1
  refine ⟨rfl, hne, ?_⟩
  exact (bbox_change_clears_store _ _ _ "key" "t2" 7 rfl hne).1

/-! ### Stale-socket frames (C9) -/

/-- C9 counterexample. With socket 2 registered (`store.ws`), a position
frame delivered by the no-longer-registered socket 1 still mutates the
reconciliation store: the handler body contains no check of which socket
instance fired the event, so the vessel is inserted all the same. -/
theorem stale_socket_frame_mutates_store :
    ((1 : Nat) = 2 → False) ∧
    (mapGet
      ((deliver
        { ws := some ⟨2, 1⟩, lastConnectISO := none, lastMessageISO := none,
          lastError := none, bboxKey := none, positionsByKey := [] }
        1
        (.positionReport (some ((10 : ℝ), 20)) (some "366123456")
          .nullish .nullish)
        "t9").positionsByKey)
      (.MMSI "366123456")).isSome = true ∧
    (mapGet ([] : Store) (.MMSI "366123456")).isSome = false := by
  exact ⟨by decide, rfl, rfl⟩

set_option linter.unusedVariables false in
/-- C9 amended. The message handler accepts frames regardless of which
socket instance delivered them: its effect is entirely independent of
the delivering socket, and a valid position frame delivered by a socket
other than the currently registered one mutates the store just like one
from the registered socket. Stale-frame discarding relies on `close()`
stopping event delivery, not on a registration check. -/
theorem stale_socket_frames_accepted
    (gs : GlobalState) (w : SocketT) (fromSock : Nat) (m : String)
    (lat lon : ℝ) (sogRaw cogRaw : RawVal) (now : String)
    (hw : gs.ws = some w) (hne : fromSock ≠ w.id)
    (hm : matchesMmsiPattern m = true) :
    (mapGet
      (deliver gs fromSock
        (.positionReport (some (lat, lon)) (some m) sogRaw cogRaw)
        now).positionsByKey
      (.MMSI m)).isSome = true ∧
    (∀ (sock1 sock2 : Nat) (msg : AisMsg) (t : String),
      deliver gs sock1 msg t = deliver gs sock2 msg t) := by
  constructor
  · unfold deliver
    dsimp only
    unfold handleMsg
    dsimp only
    rw [if_pos hm, mapGet_applyPosition_self]
    rfl
  · intro sock1 sock2 msg t
    rfl

/-- C9 amended, witness. -/
theorem stale_socket_frames_accepted_witness :
    ({ ws := some ⟨2, 1⟩, lastConnectISO := none, lastMessageISO := none,
       lastError := none, bboxKey := none, positionsByKey := [] } :
      GlobalState).ws = some ⟨2, 1⟩ ∧
    (1 : Nat) ≠ (⟨2, 1⟩ : SocketT).id ∧
    matchesMmsiPattern "366123456" = true ∧
    (mapGet
      ((deliver
        { ws := some ⟨2, 1⟩, lastConnectISO := none, lastMessageISO := none,
          lastError := none, bboxKey := none, positionsByKey := [] }
        1
        (.positionReport (some ((10 : ℝ), 20)) (some "366123456")
          (.num 5.2) (.num 180))
        "t9").positionsByKey)
      (.MMSI "366123456")).isSome = true := by
  refine ⟨rfl, by decide, by decide, ?_⟩
  exact (stale_socket_frames_accepted _ ⟨2, 1⟩ 1 "366123456" 10 20
    (.num 5.2) (.num 180) "t9" rfl (by decide) (by decide)).1

/-! ### Missing credential (C10) -/

/-- C10. When the API key credential is absent, the `GET` query returns
the structured `ok: false` error body (HTTP 500) carrying the throw's
message and the last known connection diagnostics, leaving the store
untouched — it does not crash. -/
theorem missing_api_key_structured_error
    (gs : GlobalState) (presetRaw : Option String) (now : String)
    (newId : Nat) :
    GET gs none presetRaw now newId =
      .failure
        { ok := false
          error := "Missing AISSTREAM_API_KEY in environment."
          lastConnectISO := gs.lastConnectISO
          lastMessageISO := gs.lastMessageISO
          lastError := gs.lastError
          wsReadyState := gs.ws.map SocketT.readyState
          status := 500 } gs := by
  unfold GET connectIfNeeded
  rfl

end VesselApp
